import Mathlib

/-!
Verification of the credential-propagation gateway and generic dispatcher of
the open-webui-mcp-server repository (src/openwebui_mcp/client.py and
src/openwebui_mcp/main.py), as a shallow embedding.

Python strings are modelled as Lean String; Python Optional[str] as
Option String; Python truthiness of a string (empty string is falsy) is made
explicit. The HTTP layer (httpx) is modelled by an outcome parameter: the
dispatcher issues calls whose trace we record, and the backend answers with a
response, a timeout, or a connection failure. httpx raise_for_status raises
for every status outside 200..299 (its is_success predicate), and its
TimeoutException derives from TransportError; both facts are reflected below.
-/

namespace OpenWebUIMCP

/-- Python truthiness of an optional string: None and the empty string are
falsy, every other string is truthy. -/
def pyTruthy : Option String → Bool
  | some s => s ≠ ""
  | none => false

/-- Python expression a or b for a an optional string and b a string:
yields a when a is a non-empty string, otherwise b. -/
def pyOrS : Option String → String → String
  | some s, d => if s = "" then d else s
  | none, d => d

/-- Python slice s[n:], dropping the first n characters. -/
def strDropChars (s : String) (n : Nat) : String := ⟨s.data.drop n⟩

/-- Python s.startswith(p), as comparison of the leading characters. -/
def strStartsWithLit (s p : String) : Bool :=
  decide (s.data.take p.data.length = p.data)

/-- Python s.rstrip(slash), stripping all trailing slash characters. -/
def rstripSlash (s : String) : String :=
  ⟨(s.data.reverse.dropWhile (fun c => c = '/')).reverse⟩

/-- The process environment as read by os.getenv: each relevant variable is
present with a value or absent. Fields in order: OPENWEBUI_URL,
OPENWEBUI_API_KEY, MCP_TRANSPORT, MCP_HTTP_HOST, MCP_HTTP_PORT,
MCP_HTTP_PATH. -/
structure Env where
  url : Option String
  apiKey : Option String
  transport : Option String
  host : Option String
  port : Option String
  path : Option String

/-- The state of an OpenWebUIClient after construction: fields base_url and
api_key from client.py. -/
structure Client where
  base_url : String
  api_key : String

/-- OpenWebUIClient.__init__ from client.py lines 16-33:
base_url = (base_url or os.getenv OPENWEBUI_URL with default empty) with
trailing slashes stripped; api_key = api_key or os.getenv OPENWEBUI_API_KEY
with default empty; raises ValueError when the resulting base_url is empty. -/
def clientInit (burl akey : Option String) (env : Env) : Except String Client :=
  let bu := rstripSlash (pyOrS burl (env.url.getD ""))
  let ak := pyOrS akey (env.apiKey.getD "")
  if bu = "" then
    Except.error "Open WebUI URL required. Set OPENWEBUI_URL env var or pass base_url."
  else
    Except.ok ⟨bu, ak⟩

/-- The token computed at the top of OpenWebUIClient._get_headers
(client.py line 37): token = api_key or self.api_key. -/
def headerToken (c : Client) (apiKey : Option String) : String :=
  pyOrS apiKey c.api_key

/-- OpenWebUIClient._get_headers from client.py lines 35-43: always
Content-Type application/json, plus an Authorization bearer header exactly
when the resolved token is truthy (non-empty). -/
def getHeaders (c : Client) (apiKey : Option String) : List (String × String) :=
  let token := headerToken c apiKey
  if token = "" then
    [("Content-Type", "application/json")]
  else
    [("Content-Type", "application/json"), ("Authorization", "Bearer " ++ token)]

/-- A JSON value, the shape of what response.json() returns. -/
inductive JValue where
  | null
  | str (s : String)
  | num (n : Int)
  | arr (xs : List JValue)
  | obj (fs : List (String × JValue))

/-- Kinds of httpx transport-level failures; TimeoutException is a subclass
of httpx.TransportError. -/
inductive TransportKind where
  | timeout
  | connection

/-- The failure raised out of OpenWebUIClient.request: either an
httpx.HTTPStatusError from response.raise_for_status, carrying the response
status and body, or an httpx.TransportError (timeout or connection). -/
inductive ReqError where
  | httpStatus (status : Nat) (body : String)
  | transport (kind : TransportKind)

/-- What the backend does for one issued HTTP call: answer with a status,
declared content type and body, or time out, or fail to connect. -/
inductive HttpOutcome where
  | response (status : Nat) (contentType : Option String) (body : String)
  | timedOut
  | connectFailed

/-- One HTTP call as issued by the dispatcher: method, absolute URL, header
list, and the per-call timeout in seconds (httpx.AsyncClient(timeout=60.0)). -/
structure HttpCall where
  method : String
  url : String
  headers : List (String × String)
  timeoutSeconds : Nat

/-- httpx Response.is_success: status in 200..299. response.raise_for_status
returns normally exactly on these statuses and raises HTTPStatusError on all
others, redirects included. -/
def isSuccessStatus (status : Nat) : Bool :=
  200 ≤ status && status < 300

/-- OpenWebUIClient.request from client.py lines 45-67. Returns the list of
issued HTTP calls (the trace; the code issues exactly one, with timeout 60
seconds and no retry) together with the result: on a success status, the
decoded JSON when the declared content type starts with application/json
(dec models response.json()), otherwise the text envelope; on any other
status the HTTPStatusError with status and body; on a transport failure the
TransportError. -/
def request (c : Client) (method p : String) (apiKey : Option String)
    (outcome : HttpOutcome) (dec : String → JValue) :
    List HttpCall × Except ReqError JValue :=
  let url := c.base_url ++ p
  let headers := getHeaders c apiKey
  let call : HttpCall := ⟨method, url, headers, 60⟩
  match outcome with
  | HttpOutcome.timedOut =>
      ([call], Except.error (ReqError.transport TransportKind.timeout))
  | HttpOutcome.connectFailed =>
      ([call], Except.error (ReqError.transport TransportKind.connection))
  | HttpOutcome.response status ct body =>
      if isSuccessStatus status then
        if strStartsWithLit (ct.getD "") "application/json" then
          ([call], Except.ok (dec body))
        else
          ([call], Except.ok (JValue.obj [("text", JValue.str body)]))
      else
        ([call], Except.error (ReqError.httpStatus status body))

/-- The error taxonomy of spec section 7, as a classification of the failure
the code raises: the code raises a single HTTPStatusError type carrying
status and body, and the taxonomy names are the classification of that
status (401/403 AuthError, 404 NotFoundError, other statuses
UnclassifiedBackendError, transport failures TransportError). -/
inductive ErrorKind where
  | AuthError
  | NotFoundError
  | TransportError
  | UnclassifiedBackendError

/-- Classification of a raised failure by the carried status. -/
def classify : ReqError → ErrorKind
  | ReqError.httpStatus s _ =>
      if s = 401 ∨ s = 403 then ErrorKind.AuthError
      else if s = 404 then ErrorKind.NotFoundError
      else ErrorKind.UnclassifiedBackendError
  | ReqError.transport _ => ErrorKind.TransportError

/-- get_user_token from main.py lines 55-60: the ambient ContextVar value if
truthy, otherwise os.getenv OPENWEBUI_API_KEY (which is None when unset). -/
def getUserToken (ambient envKey : Option String) : Option String :=
  match ambient with
  | some t => if t = "" then envKey else some t
  | none => envKey

/-- AuthMiddleware.__call__ from main.py lines 30-37, for an http-scope
request: the value of the ambient ContextVar after the middleware ran, as a
function of the raw authorization header (absent header reads as the empty
string). The ContextVar default is None, and it is set to the substring
after the seven-character Bearer prefix exactly when the header starts with
that literal prefix. -/
def authContextAfter (authHeader : Option String) : Option String :=
  let auth := authHeader.getD ""
  if strStartsWithLit auth "Bearer " then some (strDropChars auth 7) else none

/-- The end-to-end credential resolution for one invocation, composing the
two layers as the code wires them: every MCP tool in main.py calls
get_client().op(get_user_token()), so the api_key argument reaching
OpenWebUIClient.request is get_user_token() on that path, while a direct
caller of request may pass an explicit api_key instead (bypassing
get_user_token, which only the tool layer calls); _get_headers then computes
api_key or self.api_key. -/
def resolveInvocationToken (explicit ambient : Option String) (c : Client)
    (envKey : Option String) : String :=
  let apiKeyArg : Option String :=
    match explicit with
    | some e => some e
    | none => getUserToken ambient envKey
  headerToken c apiKeyArg

/-- What main from main.py lines 753-774 does, abstracted from I/O: exit
with a code after printing lines to stderr, or proceed to serve on HTTP or
stdio transport. -/
inductive MainOutcome where
  | exitWithError (code : Nat) (stderrLines : List String)
  | serveHttp (host : String) (port : Nat) (p : String)
  | serveStdio

/-- main from main.py lines 753-774: when OPENWEBUI_URL is unset or empty
(falsy), print two diagnostic lines to stderr and exit with status 1 before
any serving; otherwise select the transport from MCP_TRANSPORT (default
stdio) and serve. -/
def mainEntry (env : Env) : MainOutcome :=
  if pyTruthy env.url = false then
    MainOutcome.exitWithError 1
      ["ERROR: OPENWEBUI_URL environment variable is required",
       "Example: export OPENWEBUI_URL=https://ai.example.com"]
  else
    let transport := (env.transport.getD "stdio").toLower
    if transport = "http" then
      MainOutcome.serveHttp (env.host.getD "0.0.0.0")
        ((env.port.getD "8000").toNat?.getD 0) (env.path.getD "/mcp")
    else
      MainOutcome.serveStdio

/-! Helper lemmas -/

/-- Appending any string to the Bearer prefix yields a string the literal
test accepts. -/
lemma bearer_starts (t : String) :
    strStartsWithLit ("Bearer " ++ t) "Bearer " = true := by
  simp [strStartsWithLit, String.data_append]

/-- Dropping the seven characters of the Bearer prefix recovers the token. -/
lemma bearer_drop (t : String) : strDropChars ("Bearer " ++ t) 7 = t := by
  simp [strDropChars, String.data_append]

/-- The dispatcher issues exactly one HTTP call, whatever the backend does:
the trace is always the singleton of the single call built from the method,
the concatenated URL, the computed headers and the 60-second timeout. -/
lemma request_trace (c : Client) (m p : String) (k : Option String)
    (o : HttpOutcome) (dec : String → JValue) :
    (request c m p k o dec).1 = [⟨m, c.base_url ++ p, getHeaders c k, 60⟩] := by
  cases o with
  | timedOut => rfl
  | connectFailed => rfl
  | response s ct b =>
      simp only [request]
      split
      · split <;> rfl
      · rfl

/-! Claim theorems -/

/-- Claim C1: the credential attached to a backend call is resolved with
first match winning: a supplied (non-empty) explicit per-call credential is
used regardless of the ambient context and the fallback; otherwise a
non-empty ambient context credential is used; otherwise the process-wide
fallback from configuration (OPENWEBUI_API_KEY, which is both what
get_user_token falls back to and what the client constructed by get_client
holds as api_key). -/
theorem credential_precedence (explicit ambient envKey : Option String)
    (c : Client) (hc : c.api_key = envKey.getD "") :
    (∀ e, explicit = some e → e ≠ "" →
      resolveInvocationToken explicit ambient c envKey = e) ∧
    (∀ a, explicit = none → ambient = some a → a ≠ "" →
      resolveInvocationToken explicit ambient c envKey = a) ∧
    (explicit = none → (ambient = none ∨ ambient = some "") →
      resolveInvocationToken explicit ambient c envKey = envKey.getD "") := by
  refine ⟨?_, ?_, ?_⟩
  · intro e he hne
    subst he
    simp [resolveInvocationToken, headerToken, pyOrS, hne]
  · intro a he ha hna
    subst he; subst ha
    simp [resolveInvocationToken, getUserToken, headerToken, pyOrS, hna]
  · intro he ha
    subst he
    rcases ha with h | h <;> subst h <;>
      cases envKey with
      | none => simp [resolveInvocationToken, getUserToken, headerToken, pyOrS, hc]
      | some k =>
          by_cases hk : k = "" <;>
            simp [resolveInvocationToken, getUserToken, headerToken, pyOrS,
              hc, hk]

/-- Witness for C1 at concrete inputs: with explicit credential exp, ambient
amb and fallback envk all set, the resolved token is exp. -/
theorem credential_precedence_witness :
    resolveInvocationToken (some "exp") (some "amb") ⟨"https://h", "envk"⟩
      (some "envk") = "exp" :=
  (credential_precedence (some "exp") (some "amb") (some "envk")
    ⟨"https://h", "envk"⟩ rfl).1 "exp" rfl (by decide)

/-- Claim C3: the middleware populates the ambient context with the token
after the literal Bearer prefix exactly when the authorization header starts
with that prefix; an absent header, or one not starting with the prefix,
leaves the context at its default of no credential. -/
theorem bearer_header_extraction :
    (∀ t : String, authContextAfter (some ("Bearer " ++ t)) = some t) ∧
    (∀ h : String, strStartsWithLit h "Bearer " = false →
      authContextAfter (some h) = none) ∧
    authContextAfter none = none ∧
    (∀ h : String, strStartsWithLit h "Bearer " = true →
      authContextAfter (some h) = some (strDropChars h 7)) := by
  refine ⟨?_, ?_, rfl, ?_⟩
  · intro t
    simp [authContextAfter, bearer_starts, bearer_drop]
  · intro h hf
    simp [authContextAfter, hf]
  · intro h ht
    simp [authContextAfter, ht]

/-- Witness for C3: header Bearer abc123 yields ambient token abc123, and a
Basic header yields no credential. -/
theorem bearer_header_extraction_witness :
    authContextAfter (some ("Bearer " ++ "abc123")) = some "abc123" ∧
    authContextAfter (some "Basic xyz") = none :=
  ⟨bearer_header_extraction.1 "abc123",
   bearer_header_extraction.2.1 "Basic xyz" (by decide)⟩

/-- Claim C4: a backend 404 response surfaces as the raised failure
classified NotFoundError, preserving the original status code and response
body. -/
theorem notFound_preserved (c : Client) (m p : String) (k : Option String)
    (ct : Option String) (body : String) (dec : String → JValue) :
    (request c m p k (HttpOutcome.response 404 ct body) dec).2
      = Except.error (ReqError.httpStatus 404 body) ∧
    classify (ReqError.httpStatus 404 body) = ErrorKind.NotFoundError :=
  ⟨rfl, rfl⟩

/-- Counterexample to claim C5 as stated: a 302 redirect response lies in
the 3xx range, so the claim says it is treated as success and returns a
result, but the dispatcher (response.raise_for_status, which raises on
every non-2xx status) raises a classified failure for it. -/
theorem redirect_not_success :
    (request ⟨"https://h", ""⟩ "GET" "/api/v1/users/" none
        (HttpOutcome.response 302 (some "application/json") "redirect-body")
        (fun _ => JValue.null)).2
      = Except.error (ReqError.httpStatus 302 "redirect-body") := rfl

/-- Claim C5 amended: the dispatcher raises a classified failure carrying
the status and body exactly when the response status is outside the 2xx
range (3xx included among failures), treats every 2xx response as success
returning a result, and never retries: the trace holds exactly one call. -/
theorem dispatcher_error_outside_2xx (c : Client) (m p : String)
    (k : Option String) (status : Nat) (ct : Option String) (body : String)
    (dec : String → JValue) :
    (¬ (200 ≤ status ∧ status < 300) →
      (request c m p k (HttpOutcome.response status ct body) dec).2
        = Except.error (ReqError.httpStatus status body)) ∧
    ((200 ≤ status ∧ status < 300) →
      ∃ v, (request c m p k (HttpOutcome.response status ct body) dec).2
        = Except.ok v) ∧
    (request c m p k (HttpOutcome.response status ct body) dec).1.length
      = 1 := by
  have hs : isSuccessStatus status = true ↔ (200 ≤ status ∧ status < 300) := by
    simp [isSuccessStatus]
  refine ⟨?_, ?_, ?_⟩
  · intro hno
    have hfalse : isSuccessStatus status = false := by
      cases hbv : isSuccessStatus status
      · rfl
      · exact absurd (hs.mp hbv) hno
    simp [request, hfalse]
  · intro hyes
    have htrue : isSuccessStatus status = true := hs.mpr hyes
    by_cases hct : strStartsWithLit (ct.getD "") "application/json" = true
    · exact ⟨dec body, by simp [request, htrue, hct]⟩
    · rw [Bool.not_eq_true] at hct
      exact ⟨JValue.obj [("text", JValue.str body)],
        by simp [request, htrue, hct]⟩
  · rw [request_trace]
    rfl

/-- Witness for the amended C5 at a concrete input: a 500 response raises
the failure carrying status 500 and the body. -/
theorem dispatcher_error_outside_2xx_witness :
    (request ⟨"https://h", ""⟩ "GET" "/p" none
        (HttpOutcome.response 500 none "oops") (fun _ => JValue.null)).2
      = Except.error (ReqError.httpStatus 500 "oops") :=
  (dispatcher_error_outside_2xx ⟨"https://h", ""⟩ "GET" "/p" none 500 none
    "oops" (fun _ => JValue.null)).1 (by decide)

/-- Claim C6: on a successful response, the dispatcher returns the decoded
JSON structure when the declared content type starts with application/json,
and otherwise the text envelope wrapping the raw body under the key text. -/
theorem success_content_negotiation (c : Client) (m p : String)
    (k : Option String) (status : Nat) (ct : Option String) (body : String)
    (dec : String → JValue) (h : 200 ≤ status ∧ status < 300) :
    (strStartsWithLit (ct.getD "") "application/json" = true →
      (request c m p k (HttpOutcome.response status ct body) dec).2
        = Except.ok (dec body)) ∧
    (strStartsWithLit (ct.getD "") "application/json" = false →
      (request c m p k (HttpOutcome.response status ct body) dec).2
        = Except.ok (JValue.obj [("text", JValue.str body)])) := by
  have htrue : isSuccessStatus status = true := by
    simp only [isSuccessStatus, Bool.and_eq_true, decide_eq_true_eq]
    exact ⟨h.1, h.2⟩
  constructor
  · intro hct
    simp [request, htrue, hct]
  · intro hct
    simp [request, htrue, hct]

/-- Witness for C6: a 200 response with content type application/json and
body payload decodes through dec, and a 200 text/plain response with body ok
yields the text envelope around ok. -/
theorem success_content_negotiation_witness :
    (request ⟨"https://h", ""⟩ "GET" "/p" none
        (HttpOutcome.response 200 (some "application/json") "payload")
        JValue.str).2 = Except.ok (JValue.str "payload") ∧
    (request ⟨"https://h", ""⟩ "GET" "/p" none
        (HttpOutcome.response 200 (some "text/plain") "ok")
        JValue.str).2
      = Except.ok (JValue.obj [("text", JValue.str "ok")]) :=
  ⟨(success_content_negotiation ⟨"https://h", ""⟩ "GET" "/p" none 200
      (some "application/json") "payload" JValue.str (by decide)).1 (by decide),
   (success_content_negotiation ⟨"https://h", ""⟩ "GET" "/p" none 200
      (some "text/plain") "ok" JValue.str (by decide)).2 (by decide)⟩

/-- Claim C7: every backend call carries the 60-second per-call timeout, the
dispatcher issues exactly one call (no retry), and a timed-out call surfaces
as the transport failure of timeout kind, classified TransportError. -/
theorem timeout_bounded_single_call (c : Client) (m p : String)
    (k : Option String) (o : HttpOutcome) (dec : String → JValue) :
    (request c m p k o dec).1.length = 1 ∧
    (∀ call ∈ (request c m p k o dec).1, call.timeoutSeconds = 60) ∧
    (o = HttpOutcome.timedOut →
      (request c m p k o dec).2
        = Except.error (ReqError.transport TransportKind.timeout) ∧
      classify (ReqError.transport TransportKind.timeout)
        = ErrorKind.TransportError) := by
  refine ⟨?_, ?_, ?_⟩
  · rw [request_trace]
    rfl
  · intro call hcall
    rw [request_trace] at hcall
    rw [List.mem_singleton] at hcall
    subst hcall
    rfl
  · intro ho
    subst ho
    exact ⟨rfl, rfl⟩

/-- Witness for C7 at a concrete input: a timed-out call yields the
transport timeout failure. -/
theorem timeout_bounded_single_call_witness :
    (request ⟨"https://h", ""⟩ "GET" "/p" none HttpOutcome.timedOut
        (fun _ => JValue.null)).2
      = Except.error (ReqError.transport TransportKind.timeout) :=
  ((timeout_bounded_single_call ⟨"https://h", ""⟩ "GET" "/p" none
      HttpOutcome.timedOut (fun _ => JValue.null)).2.2 rfl).1

/-- Claim C8: with no base URL configured (neither passed to the client nor
present non-empty in the environment), main prints a diagnostic to stderr
and exits with status 1 before serving on any transport, and constructing
the client fails, so no backend call is ever attempted. -/
theorem missing_base_url_fails (env : Env) (burl akey : Option String)
    (henv : env.url = none ∨ env.url = some "")
    (hb : burl = none ∨ burl = some "") :
    mainEntry env = MainOutcome.exitWithError 1
      ["ERROR: OPENWEBUI_URL environment variable is required",
       "Example: export OPENWEBUI_URL=https://ai.example.com"] ∧
    (∃ msg, clientInit burl akey env = Except.error msg) ∧
    (∀ h po pa, mainEntry env ≠ MainOutcome.serveHttp h po pa) ∧
    mainEntry env ≠ MainOutcome.serveStdio := by
  have hurl : pyTruthy env.url = false := by
    rcases henv with h | h <;> simp [pyTruthy, h]
  have hmain : mainEntry env = MainOutcome.exitWithError 1
      ["ERROR: OPENWEBUI_URL environment variable is required",
       "Example: export OPENWEBUI_URL=https://ai.example.com"] := by
    simp [mainEntry, hurl]
  have hgetD : env.url.getD "" = "" := by
    rcases henv with h | h <;> simp [h]
  have hstrip : rstripSlash "" = "" := rfl
  have hclient : clientInit burl akey env = Except.error
      "Open WebUI URL required. Set OPENWEBUI_URL env var or pass base_url." := by
    rcases hb with h | h <;> subst h <;>
      simp [clientInit, pyOrS, hgetD, hstrip]
  refine ⟨hmain, ⟨_, hclient⟩, ?_, ?_⟩
  · intro h po pa
    rw [hmain]
    intro hcontra
    exact MainOutcome.noConfusion hcontra
  · rw [hmain]
    intro hcontra
    exact MainOutcome.noConfusion hcontra

/-- Witness for C8 at the empty environment: main exits with status 1 and
the two diagnostic lines. -/
theorem missing_base_url_fails_witness :
    mainEntry ⟨none, none, none, none, none, none⟩
      = MainOutcome.exitWithError 1
        ["ERROR: OPENWEBUI_URL environment variable is required",
         "Example: export OPENWEBUI_URL=https://ai.example.com"] :=
  (missing_base_url_fails ⟨none, none, none, none, none, none⟩ none none
    (Or.inl rfl) (Or.inl rfl)).1

/-- Claim C9: the computed header set always contains Content-Type
application/json, and contains an Authorization header exactly when the
resolved token is non-empty, in which case its value is Bearer followed by
that token. -/
theorem headers_content_type_and_auth (c : Client) (k : Option String) :
    ("Content-Type", "application/json") ∈ getHeaders c k ∧
    (∀ v, ("Authorization", v) ∈ getHeaders c k ↔
      (headerToken c k ≠ "" ∧ v = "Bearer " ++ headerToken c k)) := by
  by_cases h : headerToken c k = ""
  · refine ⟨by simp [getHeaders, h], ?_⟩
    intro v
    simp [getHeaders, h]
  · refine ⟨by simp [getHeaders, h], ?_⟩
    intro v
    simp [getHeaders, h]

/-- Witness for C9: with a client whose configured key is k0 and no explicit
key, the headers contain both the content type pair and the bearer pair. -/
theorem headers_content_type_and_auth_witness :
    ("Content-Type", "application/json") ∈ getHeaders ⟨"u", "k0"⟩ none ∧
    ("Authorization", "Bearer " ++ "k0") ∈ getHeaders ⟨"u", "k0"⟩ none :=
  ⟨(headers_content_type_and_auth ⟨"u", "k0"⟩ none).1,
   ((headers_content_type_and_auth ⟨"u", "k0"⟩ none).2
      ("Bearer " ++ "k0")).mpr ⟨by decide, rfl⟩⟩

/-- Claim C10: an empty-string credential is treated as absent at every
tier: an empty ambient token falls through to the environment fallback, an
empty explicit api_key falls through to the configured client api_key, the
header set with an empty explicit key equals the one with no explicit key at
all, and when the resolved token is empty no Authorization header is
attached. -/
theorem empty_credential_as_absent (c : Client) (envKey : Option String)
    (k : Option String) :
    getUserToken (some "") envKey = envKey ∧
    headerToken c (some "") = c.api_key ∧
    getHeaders c (some "") = getHeaders c none ∧
    (headerToken c k = "" → ∀ v, ("Authorization", v) ∉ getHeaders c k) := by
  refine ⟨rfl, rfl, rfl, ?_⟩
  intro h v hv
  simp [getHeaders, h] at hv

/-- Witness for C10: the empty ambient token resolves to the environment
fallback envk, and a client with empty configured key and empty explicit key
attaches no Authorization header. -/
theorem empty_credential_as_absent_witness :
    getUserToken (some "") (some "envk") = some "envk" ∧
    ("Authorization", "Bearer ") ∉ getHeaders ⟨"u", ""⟩ (some "") :=
  ⟨(empty_credential_as_absent ⟨"u", ""⟩ (some "envk") (some "")).1,
   (empty_credential_as_absent ⟨"u", ""⟩ (some "envk") (some "")).2.2.2
     rfl "Bearer "⟩

end OpenWebUIMCP
